import Mathlib

/-!
# CityConnect backend — shallow embedding and verification

This file embeds the CityConnect Express/Supabase backend (`server.js`,
the main variant with routes `/api/health`, `/api/auth/*`, `/api/vehicles*`,
`/api/tickets*`, `/api/routes/plan`, `/api/staff/stats`) in Lean 4 and
settles the frozen specification claims against it.

Modelling conventions:
* JavaScript `undefined`/missing body fields are `Option` values; JS
  truthiness of a string is "present and nonempty", of a number "present
  and nonzero".
* The external Supabase service is split into an `AuthService` (opaque
  token/credential functions, passed as a parameter) and a `Datastore`
  (the four tables, as lists of rows in insertion order).
* Timestamps (`new Date()`, `Date.now()`) are milliseconds since epoch
  (`Nat`); ISO-string comparison of timestamps of equal format agrees
  with numeric comparison, so the `gte`/`lt` filters are numeric.
* Coordinates and fares are integers (`Int`); the only JS-number fact the
  claims rely on is that `0` is falsy.
* Each route handler returns its HTTP status, the response body, the
  datastore after its writes, and the trace of datastore/auth calls it
  performed.
-/

namespace CityConnect

/-! ## JavaScript-semantics helpers -/

/-- JS truthiness of an optional string: `undefined` and `""` are falsy. -/
def truthyS : Option String → Bool
  | none => false
  | some s => s ≠ ""

/-- JS truthiness of an optional number: `undefined` and `0` are falsy. -/
def truthyI : Option Int → Bool
  | none => false
  | some n => n ≠ 0

/-- PostgREST `.single()`: data is non-null only when exactly one row matches. -/
def singleRow {α : Type} : List α → Option α
  | [x] => some x
  | _ => none

/-- JS `x || null` on a number: yields `null` when the number is `0`. -/
def jsOrNullInt (n : Int) : Option Int :=
  if n = 0 then none else some n

/-- JS `x || null` on a timestamp (ms since epoch): `0` is falsy. -/
def jsOrNullNat (n : Nat) : Option Nat :=
  if n = 0 then none else some n

/-- JS `vehicle.base_fare || 20`: `null` and `0` both fall back to `20`. -/
def jsOrFare (o : Option Int) : Int :=
  match o with
  | none => 20
  | some n => if n = 0 then 20 else n

/-- Does `small` occur at the start of `big`? (char-list version). -/
def leadsWith : List Char → List Char → Bool
  | [], _ => true
  | _ :: _, [] => false
  | a :: as, b :: bs => a == b && leadsWith as bs

/-- JS `hay.includes(needle)` on char lists: contiguous-subsequence test. -/
def containsSeq (needle : List Char) : List Char → Bool
  | [] => needle.isEmpty
  | c :: rest => leadsWith needle (c :: rest) || containsSeq needle rest

/-- JS `route.toLowerCase().includes(q.toLowerCase())` (ASCII data). -/
def lowerIncludes (hay q : String) : Bool :=
  containsSeq (q.data.map Char.toLower) (hay.data.map Char.toLower)

/-- Insert into a list kept in descending `key` order. -/
def insertDescBy {α : Type} (key : α → Nat) (x : α) : List α → List α
  | [] => [x]
  | y :: ys => if key y ≤ key x then x :: y :: ys else y :: insertDescBy key x ys

/-- PostgREST order-descending clause: sort rows by `key`, descending. -/
def sortDescBy {α : Type} (key : α → Nat) : List α → List α
  | [] => []
  | x :: xs => insertDescBy key x (sortDescBy key xs)

/-! ## Data model (tables as row lists, insertion order) -/

/-- A `user_profiles` row. -/
structure UserProfile where
  id : String
  email : String
  name : String
  phone : String
  role : String
  created_at : Nat
  deriving DecidableEq

/-- A `vehicles` row. -/
structure Vehicle where
  id : String
  vehicle_number : String
  route_name : String
  status : String
  capacity : Nat
  vehicle_type : String
  next_stop : String
  eta : String
  base_fare : Option Int
  created_at : Nat
  updated_at : Nat
  deriving DecidableEq

/-- A `vehicle_locations` row (append-only history). -/
structure VehicleLocation where
  vehicle_id : String
  latitude : Int
  longitude : Int
  speed : Int
  heading : Int
  updated_by : String
  created_at : Nat
  updated_at : Nat
  deriving DecidableEq

/-- A `tickets` row.  `travel_date` is the day index of the booking day
(`toISOString().split('T')[0]` identifies exactly the UTC day). -/
structure Ticket where
  ticket_id : String
  user_id : String
  vehicle_id : String
  from_location : String
  to_location : String
  fare_amount : Int
  booking_status : String
  travel_date : Nat
  created_at : Nat
  deriving DecidableEq

/-- The external datastore's state: the four tables. -/
structure Datastore where
  user_profiles : List UserProfile
  vehicles : List Vehicle
  vehicle_locations : List VehicleLocation
  tickets : List Ticket
  deriving DecidableEq

/-- The opaque auth half of the external service.  `getUser` returns the
user id a token resolves to (`none` covers both an error result and a
thrown exception in the source).  `signUp`/`signIn` likewise collapse the
service's failure modes into `none`. -/
structure AuthService where
  getUser : String → Option String
  signUp : String → String → Option String
  signIn : String → String → Option (String × String)
  signOutOk : Bool

/-! ## Datastore queries shared by handlers -/

/-- Query `from('user_profiles').select('role').eq('id', uid).single()`. -/
def profileFor (db : Datastore) (uid : String) : Option UserProfile :=
  singleRow (db.user_profiles.filter (fun p => p.id == uid))

/-- Embedded join `vehicle_locations(*)` for one vehicle: all of its
location rows, in table order (the source adds no `order` clause). -/
def locationsOf (db : Datastore) (vid : String) : List VehicleLocation :=
  db.vehicle_locations.filter (fun l => l.vehicle_id == vid)

/-! ## Ticket-id generation

`ticketId` embeds
`` `TKT-${Date.now()}-${Math.random().toString(36).substr(2, 6).toUpperCase()}` ``.
`Math.random()` produces a dyadic rational `k / 2^53`; its base-36
expansion is finite (at most 53 digits, no trailing zeros), and JS
prints `"0"` for zero and `"0." ++ digits` otherwise.  We compute the
exact expansion digit by digit; V8's printing agrees with it on every
input used below. -/

/-- Lowercase base-36 digit character, as produced by `toString(36)`. -/
def base36Digit (d : Nat) : Char :=
  if d < 10 then Char.ofNat (48 + d) else Char.ofNat (87 + d)

/-- Base-36 fraction digits of `r / 2^53`, trailing zeros stripped.
53 steps of fuel always suffice (`36^53` is divisible by `2^53`). -/
def fracDigits36 : Nat → Nat → List Nat
  | 0, _ => []
  | fuel + 1, r =>
    if r = 0 then []
    else r * 36 / 2 ^ 53 :: fracDigits36 fuel (r * 36 % 2 ^ 53)

/-- Characters of `(k / 2^53).toString(36)`. -/
def randString36Chars (k : Nat) : List Char :=
  if k = 0 then ['0']
  else '0' :: '.' :: (fracDigits36 53 k).map base36Digit

/-- Characters of `Math.random().toString(36).substr(2, 6).toUpperCase()`
for random value `k / 2^53`. -/
def randSuffixChars (k : Nat) : List Char :=
  (((randString36Chars k).drop 2).take 6).map Char.toUpper

/-- The booking handler's generated ticket identifier. -/
def ticketId (now k : Nat) : String :=
  "TKT-" ++ toString now ++ "-" ++ String.mk (randSuffixChars k)

/-- Uppercase-alphanumeric character test (claimed suffix alphabet). -/
def isUpperAlnum (c : Char) : Bool :=
  c.isDigit || ('A' ≤ c && c ≤ 'Z')

/-! ## Request bodies, response shapes, call traces -/

/-- Body of `POST /api/auth/signup`. -/
structure SignupBody where
  email : Option String
  password : Option String
  name : Option String
  phone : Option String
  role : Option String
  deriving DecidableEq

/-- Body of `POST /api/vehicles/:id/location`
(`speed` and `heading` default to `0` when absent). -/
structure LocationBody where
  latitude : Option Int
  longitude : Option Int
  speed : Option Int
  heading : Option Int
  deriving DecidableEq

/-- Body of `POST /api/tickets/book`. -/
structure BookingBody where
  vehicleId : Option String
  fromLocation : Option String
  toLocation : Option String
  fare : Option Int
  deriving DecidableEq

/-- Per-vehicle object shaped by `GET /api/vehicles`. -/
structure VehicleView where
  id : String
  number : String
  route : String
  status : String
  capacity : Nat
  vtype : String
  lat : Option Int
  lng : Option Int
  lastUpdated : Option Nat
  nextStop : String
  eta : String
  deriving DecidableEq

/-- Per-ticket object shaped by `GET /api/tickets`. -/
structure TicketView where
  id : String
  vehicleNumber : String
  route : String
  fromLoc : String
  toLoc : String
  fare : Int
  bookedAt : Nat
  travelDate : Nat
  status : String
  deriving DecidableEq

/-- Per-route option shaped by `GET /api/routes/plan`
(`estimatedDuration` and `nextDeparture` are hardcoded strings). -/
structure RouteOption where
  id : String
  vehicleNumber : String
  route : String
  vtype : String
  estimatedFare : Int
  estimatedDuration : String
  nextDeparture : String
  deriving DecidableEq

/-- Response bodies the modelled endpoints can produce.  The constant
`hours: 6.2` display field of the stats payload is omitted (an inert
literal never read by any claim). -/
inductive Body where
  | error (msg : String)
  | healthOk
  | signupOk (uid : String)
  | loginOk (uid : String) (role : String)
  | logoutOk
  | vehicles (vs : List VehicleView)
  | locationOf (vid : String) (lat lng : Int) (ts : Nat)
  | locationPosted (vid : String) (lat lng : Int)
  | ticketBooked (tid vnum vroute : String)
  | tickets (ts : List TicketView)
  | plan (fromQ toQ : String) (routes : List RouteOption) (totalOptions : Nat)
  | stats (passengers : Nat) (revenue : Int) (trips : Nat) (activeVehicles : Nat)
  deriving DecidableEq

/-- The datastore/auth-service calls a handler can make. -/
inductive DbCall where
  | authGetUser
  | authSignUp
  | authSignIn
  | authSignOut
  | selectProfiles
  | insertProfile
  | selectVehicles
  | updateVehicle
  | selectLocations
  | insertLocation
  | selectTickets
  | insertTicket
  deriving DecidableEq

/-- What one route handler produces: status, body, datastore after its
writes, and the trace of external calls it made itself. -/
structure HandlerResult where
  status : Nat
  body : Body
  db : Datastore
  calls : List DbCall
  deriving DecidableEq

/-! ## Route handlers

Each definition is a line-by-line translation of the corresponding
`app.<verb>` handler of the source.  Where the source dereferences a
possibly-`null` datastore result without a check, the thrown `TypeError`
is caught by the handler's `catch`, so the model returns status 500 at
that point (with the writes already performed kept, as in the source). -/

/-- Handler of `POST /api/auth/signup`. -/
def signupHandler (svc : AuthService) (b : SignupBody) (db : Datastore)
    (now : Nat) : HandlerResult :=
  if ¬(truthyS b.email && truthyS b.password && truthyS b.name &&
        truthyS b.phone && truthyS b.role) then
    ⟨400, .error "All fields are required", db, []⟩
  else if ¬(b.role = some "traveller" ∨ b.role = some "staff") then
    ⟨400, .error "Invalid role", db, []⟩
  else
    match svc.signUp (b.email.getD "") (b.password.getD "") with
    | none => ⟨400, .error "auth service error", db, [.authSignUp]⟩
    | some uid =>
      let profile : UserProfile :=
        ⟨uid, b.email.getD "", b.name.getD "", b.phone.getD "",
          b.role.getD "", now⟩
      ⟨201, .signupOk uid,
        { db with user_profiles := db.user_profiles ++ [profile] },
        [.authSignUp, .insertProfile]⟩

/-- Handler of `POST /api/auth/login`. -/
def loginHandler (svc : AuthService) (email password : Option String)
    (db : Datastore) : HandlerResult :=
  if ¬(truthyS email && truthyS password) then
    ⟨400, .error "Email and password are required", db, []⟩
  else
    match svc.signIn (email.getD "") (password.getD "") with
    | none => ⟨401, .error "Invalid credentials", db, [.authSignIn]⟩
    | some (uid, _tok) =>
      match profileFor db uid with
      | none =>
        ⟨500, .error "Failed to fetch user profile", db,
          [.authSignIn, .selectProfiles]⟩
      | some p =>
        ⟨200, .loginOk uid p.role, db, [.authSignIn, .selectProfiles]⟩

/-- Handler of `POST /api/auth/logout`. -/
def logoutHandler (svc : AuthService) (db : Datastore) : HandlerResult :=
  if svc.signOutOk then ⟨200, .logoutOk, db, [.authSignOut]⟩
  else ⟨500, .error "Logout failed", db, [.authSignOut]⟩

/-- Response shaping of one vehicle row by `GET /api/vehicles`:
`current_location[0]?.latitude || null` — element `0` of the unordered
embedded join, with `0` collapsed to `null` by `||`. -/
def vehicleView (db : Datastore) (v : Vehicle) : VehicleView :=
  let locs := locationsOf db v.id
  { id := v.id
    number := v.vehicle_number
    route := v.route_name
    status := v.status
    capacity := v.capacity
    vtype := v.vehicle_type
    lat := match locs.head? with
      | none => none
      | some l => jsOrNullInt l.latitude
    lng := match locs.head? with
      | none => none
      | some l => jsOrNullInt l.longitude
    lastUpdated := match locs.head? with
      | none => none
      | some l => jsOrNullNat l.updated_at
    nextStop := v.next_stop
    eta := v.eta }

/-- Handler of `GET /api/vehicles`. -/
def getVehiclesHandler (db : Datastore) : HandlerResult :=
  let vs := sortDescBy (fun v => v.created_at) db.vehicles
  ⟨200, .vehicles (vs.map (vehicleView db)), db, [.selectVehicles]⟩

/-- Handler of `GET /api/vehicles/:id/location`. -/
def getVehicleLocationHandler (vid : String) (db : Datastore) :
    HandlerResult :=
  match (sortDescBy (fun l => l.created_at) (locationsOf db vid)).head? with
  | none => ⟨404, .error "Vehicle location not found", db, [.selectLocations]⟩
  | some l =>
    ⟨200, .locationOf vid l.latitude l.longitude l.created_at, db,
      [.selectLocations]⟩

/-- Handler of `POST /api/vehicles/:id/location` (staff-only write). -/
def postVehicleLocationHandler (uid vid : String) (b : LocationBody)
    (db : Datastore) (now : Nat) : HandlerResult :=
  match profileFor db uid with
  | none => ⟨500, .error "Internal server error", db, [.selectProfiles]⟩
  | some p =>
    if p.role ≠ "staff" then
      ⟨403, .error "Only staff can update vehicle locations", db,
        [.selectProfiles]⟩
    else if ¬(truthyI b.latitude && truthyI b.longitude) then
      ⟨400, .error "Latitude and longitude are required", db,
        [.selectProfiles]⟩
    else
      let loc : VehicleLocation :=
        ⟨vid, b.latitude.getD 0, b.longitude.getD 0, b.speed.getD 0,
          b.heading.getD 0, uid, now, now⟩
      let db1 :=
        { db with vehicle_locations := db.vehicle_locations ++ [loc] }
      let db2 :=
        { db1 with vehicles := db1.vehicles.map (fun v =>
            if v.id == vid then { v with status := "active", updated_at := now }
            else v) }
      ⟨200, .locationPosted vid (b.latitude.getD 0) (b.longitude.getD 0), db2,
        [.selectProfiles, .insertLocation, .updateVehicle]⟩

/-- All four booking fields JS-truthy (the source's `!vehicleId || ...`). -/
def bookingFieldsOk (b : BookingBody) : Bool :=
  truthyS b.vehicleId && truthyS b.fromLocation && truthyS b.toLocation &&
    truthyI b.fare

/-- Handler of `POST /api/tickets/book` (traveller-only).  The source inserts
the ticket row before dereferencing the (unchecked) vehicle lookup, so a
missing vehicle yields 500 with the row already inserted. -/
def bookTicketHandler (uid : String) (b : BookingBody) (db : Datastore)
    (now randK : Nat) : HandlerResult :=
  if ¬bookingFieldsOk b then
    ⟨400, .error "All booking details are required", db, []⟩
  else
    match profileFor db uid with
    | none => ⟨500, .error "Internal server error", db, [.selectProfiles]⟩
    | some p =>
      if p.role ≠ "traveller" then
        ⟨403, .error "Only travellers can book tickets", db, [.selectProfiles]⟩
      else
        let vid := b.vehicleId.getD ""
        let vehicle? := singleRow (db.vehicles.filter (fun v => v.id == vid))
        let tid := ticketId now randK
        let t : Ticket :=
          ⟨tid, uid, vid, b.fromLocation.getD "", b.toLocation.getD "",
            b.fare.getD 0, "confirmed", now / 86400000, now⟩
        let db1 := { db with tickets := db.tickets ++ [t] }
        match vehicle? with
        | none =>
          ⟨500, .error "Internal server error", db1,
            [.selectProfiles, .selectVehicles, .insertTicket]⟩
        | some v =>
          ⟨201, .ticketBooked tid v.vehicle_number v.route_name, db1,
            [.selectProfiles, .selectVehicles, .insertTicket]⟩

/-- The `GET /api/tickets` row query:
`.eq('user_id', uid).order('created_at', { ascending: false })`. -/
def userTickets (db : Datastore) (uid : String) : List Ticket :=
  sortDescBy (fun t => t.created_at)
    (db.tickets.filter (fun t => t.user_id == uid))

/-- Shape one ticket row with its embedded vehicle; `none` models the
`TypeError` thrown when the joined vehicle is missing. -/
def shapeTicket (db : Datastore) (t : Ticket) : Option TicketView :=
  match (db.vehicles.filter (fun v => v.id == t.vehicle_id)).head? with
  | none => none
  | some v =>
    some ⟨t.ticket_id, v.vehicle_number, v.route_name, t.from_location,
      t.to_location, t.fare_amount, t.created_at, t.travel_date,
      t.booking_status⟩

/-- Handler of `GET /api/tickets`. -/
def getTicketsHandler (uid : String) (db : Datastore) : HandlerResult :=
  match (userTickets db uid).mapM (shapeTicket db) with
  | none => ⟨500, .error "Internal server error", db, [.selectTickets]⟩
  | some views => ⟨200, .tickets views, db, [.selectTickets]⟩

/-- The `GET /api/routes/plan` relevance filter: active vehicles whose
route name contains `fromQ` or `toQ` case-insensitively. -/
def matchingRoutes (db : Datastore) (fromQ toQ : String) : List Vehicle :=
  (db.vehicles.filter (fun v => v.status == "active")).filter
    (fun v => lowerIncludes v.route_name fromQ || lowerIncludes v.route_name toQ)

/-- Response shaping of one matching vehicle by `GET /api/routes/plan`. -/
def routeOptionOf (v : Vehicle) : RouteOption :=
  ⟨v.id, v.vehicle_number, v.route_name, v.vehicle_type,
    jsOrFare v.base_fare, "25-30 mins", "5 mins"⟩

/-- Handler of `GET /api/routes/plan`. -/
def routesPlanHandler (fromQ toQ : Option String) (db : Datastore) :
    HandlerResult :=
  if ¬(truthyS fromQ && truthyS toQ) then
    ⟨400, .error "From and to locations are required", db, []⟩
  else
    let rel := matchingRoutes db (fromQ.getD "") (toQ.getD "")
    let routes := rel.map routeOptionOf
    ⟨200, .plan (fromQ.getD "") (toQ.getD "") routes routes.length, db,
      [.selectVehicles]⟩

/-- Milliseconds per day. -/
def msPerDay : Nat := 86400000

/-- Start of the UTC day containing `now` (ms since epoch). -/
def dayStart (now : Nat) : Nat := now / msPerDay * msPerDay

/-- The stats handler's ticket range query:
`.gte('created_at', today + 'T00:00:00').lt('created_at', today + 'T23:59:59')`.
The upper bound is 23:59:59.000, i.e. `dayStart now + 86399000`. -/
def todayRangeTickets (db : Datastore) (now : Nat) : List Ticket :=
  db.tickets.filter (fun t =>
    decide (dayStart now ≤ t.created_at) &&
      decide (t.created_at < dayStart now + 86399000))

/-- Handler of `GET /api/staff/stats` (staff-only). -/
def staffStatsHandler (uid : String) (db : Datastore) (now : Nat) :
    HandlerResult :=
  match profileFor db uid with
  | none => ⟨500, .error "Internal server error", db, [.selectProfiles]⟩
  | some p =>
    if p.role ≠ "staff" then
      ⟨403, .error "Only staff can access these stats", db, [.selectProfiles]⟩
    else
      let ts := todayRangeTickets db now
      let passengers := ts.length
      let revenue := (ts.map (fun t => t.fare_amount)).sum
      let active := (db.vehicles.filter (fun v => v.status == "active")).length
      ⟨200, .stats passengers revenue (passengers / 18) active, db,
        [.selectProfiles, .selectTickets, .selectVehicles]⟩

/-! ## Auth middleware and dispatcher -/

/-- JS `str.split(sep)` for a one-character separator: split at every
occurrence, keeping empty pieces. -/
def splitChar (sep : Char) : List Char → List (List Char)
  | [] => [[]]
  | c :: cs =>
    let r := splitChar sep cs
    if c == sep then [] :: r
    else
      match r with
      | [] => [[c]]
      | p :: ps => (c :: p) :: ps

/-- The claimed ticket-id pattern: `TKT-<digits>-<exactly 6 uppercase
alphanumeric characters>`, decided on the `-`-separated pieces. -/
def matchesTicketPattern (s : String) : Bool :=
  match splitChar '-' s.data with
  | [p, ts, suf] =>
    p == "TKT".data && !ts.isEmpty && ts.all Char.isDigit &&
      suf.length == 6 && suf.all isUpperAlnum
  | _ => false

/-- Token extraction `authHeader && authHeader.split(' ')[1]`, with JS
truthiness: an absent or empty header, a header with no second
space-separated part, or an empty second part all yield no token. -/
def bearerToken (authHeader : Option String) : Option String :=
  match authHeader with
  | none => none
  | some h =>
    if h = "" then none
    else
      match (splitChar ' ' h.data)[1]? with
      | none => none
      | some t => if t = [] then none else some (String.mk t)

/-- Outcome of the `authenticateToken` middleware. -/
inductive AuthOutcome where
  | reject (status : Nat) (msg : String)
  | accept (uid : String)
  deriving DecidableEq

/-- The `authenticateToken` middleware: 401 when no token, 403 when the
auth service cannot resolve it (error result or thrown exception). -/
def authenticateToken (svc : AuthService) (authHeader : Option String) :
    AuthOutcome :=
  match bearerToken authHeader with
  | none => .reject 401 "Access token required"
  | some tok =>
    match svc.getUser tok with
    | none => .reject 403 "Invalid or expired token"
    | some uid => .accept uid

/-- The modelled API surface (the source's declared routes). -/
inductive ApiRequest where
  | health
  | signup (b : SignupBody)
  | login (email password : Option String)
  | logout
  | getVehicles
  | getVehicleLocation (vid : String)
  | postVehicleLocation (vid : String) (b : LocationBody)
  | bookTicket (b : BookingBody)
  | getTickets
  | routesPlan (fromQ toQ : Option String)
  | staffStats
  deriving DecidableEq

/-- Routes guarded by `authenticateToken` (every declared `/api/*` route
except the health check and the signup/login auth routes). -/
def isProtectedApi : ApiRequest → Bool
  | .health => false
  | .signup _ => false
  | .login _ _ => false
  | _ => true

/-- Result of dispatching one request: status, body, datastore afterwards,
the calls made by the route handler itself (the middleware's own
`getUser` round trip is not part of this trace), and whether the route
handler ran at all (`next()` reached). -/
structure ApiResult where
  status : Nat
  body : Body
  db : Datastore
  handlerCalls : List DbCall
  handlerRan : Bool
  deriving DecidableEq

/-- Lift an unprotected handler's result. -/
def liftH (r : HandlerResult) : ApiResult :=
  ⟨r.status, r.body, r.db, r.calls, true⟩

/-- Run a handler behind the `authenticateToken` middleware. -/
def runProtected (svc : AuthService) (authHeader : Option String)
    (db : Datastore) (handler : String → HandlerResult) : ApiResult :=
  match authenticateToken svc authHeader with
  | .reject status msg => ⟨status, .error msg, db, [], false⟩
  | .accept uid => liftH (handler uid)

/-- The server's dispatch: route each request to its handler, applying
the auth middleware exactly where the source does. -/
def handleApi (svc : AuthService) (db : Datastore) (now randK : Nat)
    (authHeader : Option String) : ApiRequest → ApiResult
  | .health => ⟨200, .healthOk, db, [], true⟩
  | .signup b => liftH (signupHandler svc b db now)
  | .login e p => liftH (loginHandler svc e p db)
  | .logout => runProtected svc authHeader db (fun _ => logoutHandler svc db)
  | .getVehicles => runProtected svc authHeader db (fun _ => getVehiclesHandler db)
  | .getVehicleLocation vid =>
    runProtected svc authHeader db (fun _ => getVehicleLocationHandler vid db)
  | .postVehicleLocation vid b =>
    runProtected svc authHeader db
      (fun uid => postVehicleLocationHandler uid vid b db now)
  | .bookTicket b =>
    runProtected svc authHeader db
      (fun uid => bookTicketHandler uid b db now randK)
  | .getTickets =>
    runProtected svc authHeader db (fun uid => getTicketsHandler uid db)
  | .routesPlan f t =>
    runProtected svc authHeader db (fun _ => routesPlanHandler f t db)
  | .staffStats =>
    runProtected svc authHeader db (fun uid => staffStatsHandler uid db now)

/-! ## General lemmas about the embedded query combinators -/

theorem mem_insertDescBy {α : Type} (key : α → Nat) (x a : α) (l : List α) :
    a ∈ insertDescBy key x l ↔ a = x ∨ a ∈ l := by
  induction l with
  | nil => simp [insertDescBy]
  | cons y ys ih =>
    simp only [insertDescBy]
    split
    · simp [List.mem_cons]
    · simp only [List.mem_cons, ih]
      tauto

theorem mem_sortDescBy {α : Type} (key : α → Nat) (a : α) (l : List α) :
    a ∈ sortDescBy key l ↔ a ∈ l := by
  induction l with
  | nil => simp [sortDescBy]
  | cons y ys ih =>
    simp [sortDescBy, mem_insertDescBy, ih]

/-! ## Concrete instances used by witnesses and counterexamples -/

/-- An auth service that rejects every token. -/
def svcReject : AuthService :=
  ⟨fun _ => none, fun _ _ => none, fun _ _ => none, true⟩

/-- An auth service that accepts exactly the token `"tok1"` as `"u1"`. -/
def svcU1 : AuthService :=
  ⟨fun t => if t = "tok1" then some "u1" else none,
    fun _ _ => none, fun _ _ => none, true⟩

/-- The empty datastore. -/
def dbEmpty : Datastore := ⟨[], [], [], []⟩

/-! ## Claims -/

/-- Claim C1. For every request to a declared `/api/*` route other than
`/api/health` and the `/api/auth/*` login/signup routes, a missing
bearer token yields 401 and a token the auth service cannot verify
yields 403; in both cases the route handler never runs, it makes no
datastore call, and the datastore is unchanged. -/
theorem protected_routes_auth_gate (svc : AuthService) (db : Datastore)
    (now randK : Nat) (hdr : Option String) (req : ApiRequest)
    (hp : isProtectedApi req = true) :
    (bearerToken hdr = none →
      handleApi svc db now randK hdr req =
        ⟨401, .error "Access token required", db, [], false⟩) ∧
    (∀ tok, bearerToken hdr = some tok → svc.getUser tok = none →
      handleApi svc db now randK hdr req =
        ⟨403, .error "Invalid or expired token", db, [], false⟩) := by
  constructor
  · intro h
    cases req <;>
      simp_all [handleApi, runProtected, authenticateToken, isProtectedApi]
  · intro tok h1 h2
    cases req <;>
      simp_all [handleApi, runProtected, authenticateToken, isProtectedApi]

/-- Witness for C1: on a concrete protected request (`GET /api/tickets`),
an absent header gives 401 and an unverifiable token gives 403, with no
handler activity. -/
theorem protected_routes_auth_gate_witness :
    handleApi svcReject dbEmpty 0 0 none .getTickets =
      ⟨401, .error "Access token required", dbEmpty, [], false⟩ ∧
    handleApi svcReject dbEmpty 0 0 (some "Bearer abc") .getTickets =
      ⟨403, .error "Invalid or expired token", dbEmpty, [], false⟩ :=
  ⟨(protected_routes_auth_gate svcReject dbEmpty 0 0 none .getTickets
      rfl).1 rfl,
    (protected_routes_auth_gate svcReject dbEmpty 0 0 (some "Bearer abc")
      .getTickets rfl).2 "abc" (by decide) rfl⟩

/-- Claim C5. Every ticket row selected by the `GET /api/tickets` query for
an authenticated user has `user_id` equal to that user's id. -/
theorem tickets_listing_only_own (db : Datastore) (uid : String)
    (t : Ticket) (h : t ∈ userTickets db uid) : t.user_id = uid := by
  unfold userTickets at h
  rw [mem_sortDescBy] at h
  simpa using (List.mem_filter.mp h).2

/-- A ticket of Alice's, for the C5 witness. -/
def tkAlice : Ticket :=
  ⟨"TKT-1000-AAAAAA", "alice", "v1", "Central", "Airport", 10, "confirmed",
    0, 1000⟩

/-- A ticket of Bob's, for the C5 witness. -/
def tkBob : Ticket :=
  ⟨"TKT-2000-BBBBBB", "bob", "v1", "Central", "Airport", 12, "confirmed",
    0, 2000⟩

/-- Datastore holding tickets from two distinct users. -/
def dbTwoUsers : Datastore := ⟨[], [], [], [tkAlice, tkBob]⟩

/-- Witness for C5: Alice's ticket is listed for Alice, and the theorem
yields that its `user_id` is hers. -/
theorem tickets_listing_only_own_witness :
    tkAlice ∈ userTickets dbTwoUsers "alice" ∧ tkAlice.user_id = "alice" :=
  ⟨by decide, tickets_listing_only_own dbTwoUsers "alice" tkAlice (by decide)⟩

/-- A traveller profile for user `u1`. -/
def profTravellerU1 : UserProfile :=
  ⟨"u1", "u1@example.com", "User One", "5550001", "traveller", 0⟩

/-- Datastore whose only profile is the traveller `u1`. -/
def dbTravellerU1 : Datastore := ⟨[profTravellerU1], [], [], []⟩

/-- Claim C2. An authenticated `POST /api/vehicles/:id/location` whose
caller's profile role is not `staff` gets 403, and the datastore is
unchanged: no `vehicle_locations` row is inserted and no vehicle status
is touched. -/
theorem post_location_nonstaff_403 (svc : AuthService) (db : Datastore)
    (now randK : Nat) (hdr : Option String) (tok uid vid : String)
    (b : LocationBody) (p : UserProfile)
    (h1 : bearerToken hdr = some tok) (h2 : svc.getUser tok = some uid)
    (h3 : profileFor db uid = some p) (h4 : p.role ≠ "staff") :
    handleApi svc db now randK hdr (.postVehicleLocation vid b) =
      ⟨403, .error "Only staff can update vehicle locations", db,
        [.selectProfiles], true⟩ := by
  simp [handleApi, runProtected, authenticateToken, h1, h2, liftH,
    postVehicleLocationHandler, h3, h4]

/-- Witness for C2: the traveller `u1`, properly authenticated, posts a
location and gets 403 with nothing written. -/
theorem post_location_nonstaff_403_witness :
    handleApi svcU1 dbTravellerU1 5 0 (some "Bearer tok1")
        (.postVehicleLocation "v1" ⟨some 10, some 20, none, none⟩) =
      ⟨403, .error "Only staff can update vehicle locations",
        dbTravellerU1, [.selectProfiles], true⟩ :=
  post_location_nonstaff_403 svcU1 dbTravellerU1 5 0 (some "Bearer tok1")
    "tok1" "u1" "v1" ⟨some 10, some 20, none, none⟩ profTravellerU1
    (by decide) (by decide) (by decide) (by decide)

/-- Claim C3. A signup whose role field is present but outside
`{traveller, staff}` gets 400 with no external call at all (neither the
auth-service `signUp` nor the profile insert) and no datastore change. -/
theorem signup_invalid_role_400 (svc : AuthService) (db : Datastore)
    (now randK : Nat) (hdr : Option String) (b : SignupBody) (r : String)
    (hr : b.role = some r) (h1 : r ≠ "traveller") (h2 : r ≠ "staff") :
    (handleApi svc db now randK hdr (.signup b)).status = 400 ∧
    (handleApi svc db now randK hdr (.signup b)).db = db ∧
    (handleApi svc db now randK hdr (.signup b)).handlerCalls = [] := by
  have hrole : ¬(b.role = some "traveller" ∨ b.role = some "staff") := by
    rintro (h | h) <;> rw [hr] at h <;> simp_all
  simp only [handleApi, liftH, signupHandler]
  by_cases hc : (truthyS b.email && truthyS b.password && truthyS b.name &&
      truthyS b.phone && truthyS b.role) = true
  · rw [if_neg (not_not_intro hc), if_pos hrole]
    exact ⟨rfl, rfl, rfl⟩
  · rw [if_pos hc]
    exact ⟨rfl, rfl, rfl⟩

/-- Witness for C3: a signup with role `"admin"` and all fields present
is refused with 400 and makes no external call. -/
theorem signup_invalid_role_400_witness :
    (handleApi svcReject dbEmpty 0 0 none
        (.signup ⟨some "a@b.c", some "pw", some "Al", some "99",
          some "admin"⟩)).status = 400 ∧
    (handleApi svcReject dbEmpty 0 0 none
        (.signup ⟨some "a@b.c", some "pw", some "Al", some "99",
          some "admin"⟩)).db = dbEmpty ∧
    (handleApi svcReject dbEmpty 0 0 none
        (.signup ⟨some "a@b.c", some "pw", some "Al", some "99",
          some "admin"⟩)).handlerCalls = [] :=
  signup_invalid_role_400 svcReject dbEmpty 0 0 none
    ⟨some "a@b.c", some "pw", some "Al", some "99", some "admin"⟩ "admin"
    rfl (by decide) (by decide)

/-- A staff profile for user `s1`. -/
def profStaffS1 : UserProfile :=
  ⟨"s1", "s1@example.com", "Staff One", "5550002", "staff", 0⟩

/-- Datastore whose only profile is the staff member `s1`. -/
def dbStaffS1 : Datastore := ⟨[profStaffS1], [], [], []⟩

/-- An auth service that accepts exactly the token `"tokS"` as `"s1"`. -/
def svcS1 : AuthService :=
  ⟨fun t => if t = "tokS" then some "s1" else none,
    fun _ _ => none, fun _ _ => none, true⟩

/-- Counterexample to C4 as stated: an authenticated booking request by
the staff (non-traveller) identity `s1` that omits `vehicleId` is
answered 400, not the claimed 403 — field validation runs before the
role check. -/
theorem book_ticket_nontraveller_cex :
    (profileFor dbStaffS1 "s1").map (fun p => p.role) = some "staff" ∧
    svcS1.getUser "tokS" = some "s1" ∧
    (handleApi svcS1 dbStaffS1 0 0 (some "Bearer tokS")
        (.bookTicket ⟨none, some "A", some "B", some 10⟩)).status = 400 ∧
    (handleApi svcS1 dbStaffS1 0 0 (some "Bearer tokS")
        (.bookTicket ⟨none, some "A", some "B", some 10⟩)).status ≠ 403 := by
  decide

/-- Claim C4, amended. For authenticated `POST /api/tickets/book`:
a request missing any of the four booking fields gets 400 (before the
role check, with no datastore call and no row created); a request with
all four fields present whose caller's profile role is not `traveller`
gets 403 with no ticket row created. -/
theorem book_ticket_validation_then_role (svc : AuthService)
    (db : Datastore) (now randK : Nat) (hdr : Option String)
    (tok uid : String) (p : UserProfile) (b : BookingBody)
    (h1 : bearerToken hdr = some tok) (h2 : svc.getUser tok = some uid) :
    (bookingFieldsOk b = false →
      handleApi svc db now randK hdr (.bookTicket b) =
        ⟨400, .error "All booking details are required", db, [], true⟩) ∧
    (bookingFieldsOk b = true → profileFor db uid = some p →
      p.role ≠ "traveller" →
      handleApi svc db now randK hdr (.bookTicket b) =
        ⟨403, .error "Only travellers can book tickets", db,
          [.selectProfiles], true⟩) := by
  constructor
  · intro hb
    simp [handleApi, runProtected, authenticateToken, h1, h2, liftH,
      bookTicketHandler, hb]
  · intro hb hp hr
    simp [handleApi, runProtected, authenticateToken, h1, h2, liftH,
      bookTicketHandler, hb, hp, hr]

/-- Witness for C4 (amended): staff member `s1` booking with all four
fields present gets 403 and no ticket row. -/
theorem book_ticket_validation_then_role_witness :
    handleApi svcS1 dbStaffS1 0 0 (some "Bearer tokS")
        (.bookTicket ⟨some "v1", some "A", some "B", some 10⟩) =
      ⟨403, .error "Only travellers can book tickets", dbStaffS1,
        [.selectProfiles], true⟩ :=
  (book_ticket_validation_then_role svcS1 dbStaffS1 0 0 (some "Bearer tokS")
      "tokS" "s1" profStaffS1 ⟨some "v1", some "A", some "B", some 10⟩
      (by decide) (by decide)).2 (by decide) (by decide) (by decide)

/-- Counterexample to C10 as stated: the authenticated, profile-less
identity `u1` sends `POST /api/tickets/book` with a missing `fare`
field and is answered 400, not the claimed 500 — for this endpoint the
field validation runs before the profile dereference. -/
theorem missing_profile_bookTicket_cex :
    profileFor dbEmpty "u1" = none ∧
    svcU1.getUser "tok1" = some "u1" ∧
    (handleApi svcU1 dbEmpty 0 0 (some "Bearer tok1")
        (.bookTicket ⟨some "v1", some "A", some "B", none⟩)).status = 400 ∧
    (handleApi svcU1 dbEmpty 0 0 (some "Bearer tok1")
        (.bookTicket ⟨some "v1", some "A", some "B", none⟩)).status ≠ 500 := by
  decide

/-- Claim C10, amended. For an authenticated identity with no
`user_profiles` row, the role-checked endpoints answer 500 (the role
check dereferences the missing profile and the `TypeError` is caught),
not 403: unconditionally for `POST /api/vehicles/:id/location` and
`GET /api/staff/stats`, and for `POST /api/tickets/book` whenever the
four booking fields are present (otherwise its field validation answers
400 first). -/
theorem missing_profile_role_check_500 (svc : AuthService) (db : Datastore)
    (now randK : Nat) (hdr : Option String) (tok uid : String)
    (h1 : bearerToken hdr = some tok) (h2 : svc.getUser tok = some uid)
    (h3 : profileFor db uid = none) :
    (∀ vid b, handleApi svc db now randK hdr (.postVehicleLocation vid b) =
      ⟨500, .error "Internal server error", db, [.selectProfiles], true⟩) ∧
    (handleApi svc db now randK hdr .staffStats =
      ⟨500, .error "Internal server error", db, [.selectProfiles], true⟩) ∧
    (∀ b, bookingFieldsOk b = true →
      handleApi svc db now randK hdr (.bookTicket b) =
        ⟨500, .error "Internal server error", db, [.selectProfiles], true⟩) := by
  refine ⟨fun vid b => ?_, ?_, fun b hb => ?_⟩
  · simp [handleApi, runProtected, authenticateToken, h1, h2, liftH,
      postVehicleLocationHandler, h3]
  · simp [handleApi, runProtected, authenticateToken, h1, h2, liftH,
      staffStatsHandler, h3]
  · simp [handleApi, runProtected, authenticateToken, h1, h2, liftH,
      bookTicketHandler, hb, h3]

/-- Witness for C10 (amended): the profile-less identity `u1` gets 500
from the stats endpoint. -/
theorem missing_profile_role_check_500_witness :
    handleApi svcU1 dbEmpty 0 0 (some "Bearer tok1") .staffStats =
      ⟨500, .error "Internal server error", dbEmpty, [.selectProfiles],
        true⟩ :=
  (missing_profile_role_check_500 svcU1 dbEmpty 0 0 (some "Bearer tok1")
      "tok1" "u1" (by decide) (by decide) (by decide)).2.1

/-! ### C6: the generated ticket identifier -/

theorem fracDigits36_lt_36 :
    ∀ (fuel r : Nat), r < 2 ^ 53 → ∀ d ∈ fracDigits36 fuel r, d < 36 := by
  intro fuel
  induction fuel with
  | zero =>
    intro r _ d hd
    simp [fracDigits36] at hd
  | succ n ih =>
    intro r hr d hd
    rw [fracDigits36] at hd
    by_cases h0 : r = 0
    · simp [h0] at hd
    · rw [if_neg h0] at hd
      rcases List.mem_cons.mp hd with h | h
      · subst h
        have hlt : r * 36 < 36 * 2 ^ 53 := by
          have h1 : r * 36 < 2 ^ 53 * 36 :=
            Nat.mul_lt_mul_of_lt_of_le hr (Nat.le_refl 36) (by norm_num)
          simpa [Nat.mul_comm] using h1
        exact (Nat.div_lt_iff_lt_mul (by positivity)).mpr hlt
      · exact ih (r * 36 % 2 ^ 53) (Nat.mod_lt _ (by positivity)) d h

theorem upper_base36 :
    ∀ d, d < 36 → isUpperAlnum (Char.toUpper (base36Digit d)) = true := by
  decide

/-- Counterexample to C6 as stated: for the representable random value
`2^52 / 2^53 = 0.5`, whose base-36 string is `"0.i"`, the generated
identifier's suffix is the single character `I`, so the id does not
match `TKT-<digits>-<exactly 6 uppercase alphanumeric>`. -/
theorem ticketId_pattern_cex :
    matchesTicketPattern (ticketId 1700000000000 (2 ^ 52)) = false ∧
    ticketId 1700000000000 (2 ^ 52) = "TKT-1700000000000-I" := by
  constructor
  · decide
  · decide

/-- Claim C6, amended. Every identifier generated by the booking handler
has the shape `TKT-<timestamp digits>-<suffix>` where the suffix
consists of **at most** six uppercase alphanumeric characters; it is
shorter than six (possibly empty) exactly when the random value's
base-36 expansion is short. -/
theorem ticketId_shape (now k : Nat) (hk : k < 2 ^ 53) :
    ∃ suf : String,
      ticketId now k = "TKT-" ++ toString now ++ "-" ++ suf ∧
      suf.length ≤ 6 ∧ suf.data.all isUpperAlnum = true := by
  refine ⟨String.mk (randSuffixChars k), rfl, ?_, ?_⟩
  · show (randSuffixChars k).length ≤ 6
    unfold randSuffixChars
    rw [List.length_map]
    exact (List.length_take 6 _).le.trans (Nat.min_le_left _ _)
  · show (randSuffixChars k).all isUpperAlnum = true
    rw [List.all_eq_true]
    intro c hc
    unfold randSuffixChars at hc
    rcases List.mem_map.mp hc with ⟨c0, hc0, rfl⟩
    have hc1 : c0 ∈ (randString36Chars k).drop 2 :=
      List.take_subset _ _ hc0
    unfold randString36Chars at hc1
    by_cases h0 : k = 0
    · simp [h0] at hc1
    · rw [if_neg h0] at hc1
      have hdrop :
          ('0' :: '.' :: (fracDigits36 53 k).map base36Digit).drop 2 =
            (fracDigits36 53 k).map base36Digit := rfl
      rw [hdrop] at hc1
      rcases List.mem_map.mp hc1 with ⟨d, hd, rfl⟩
      exact upper_base36 d (fracDigits36_lt_36 53 k hk d hd)

/-- Witness for C6 (amended): the theorem applies at the concrete random
value `1 / 2^53`. -/
theorem ticketId_shape_witness :
    ∃ suf : String,
      ticketId 1234 1 = "TKT-" ++ toString 1234 ++ "-" ++ suf ∧
      suf.length ≤ 6 ∧ suf.data.all isUpperAlnum = true :=
  ticketId_shape 1234 1 (by decide)

/-! ### C7: route planning -/

/-- Claim C7. A vehicle is selected by the `GET /api/routes/plan` filter
exactly when it is an `active` vehicle whose route name contains the
`from` or the `to` query case-insensitively; and for nonempty queries
the response's `routes` is exactly the shaped selection with
`totalOptions` equal to its length. -/
theorem route_plan_matching (db : Datastore) (q1 q2 : String)
    (v : Vehicle) :
    (v ∈ matchingRoutes db q1 q2 ↔
      v ∈ db.vehicles ∧ v.status = "active" ∧
        (lowerIncludes v.route_name q1 = true ∨
          lowerIncludes v.route_name q2 = true)) ∧
    (q1 ≠ "" → q2 ≠ "" →
      routesPlanHandler (some q1) (some q2) db =
        ⟨200, .plan q1 q2 ((matchingRoutes db q1 q2).map routeOptionOf)
          ((matchingRoutes db q1 q2).map routeOptionOf).length, db,
          [.selectVehicles]⟩) := by
  constructor
  · unfold matchingRoutes
    rw [List.mem_filter, List.mem_filter]
    constructor
    · rintro ⟨⟨hm, hs⟩, hq⟩
      exact ⟨hm, by simpa using hs, by simpa [Bool.or_eq_true] using hq⟩
    · rintro ⟨hm, hs, hq⟩
      exact ⟨⟨hm, by simpa using hs⟩, by simpa [Bool.or_eq_true] using hq⟩
  · intro h1 h2
    simp [routesPlanHandler, truthyS, h1, h2]

/-- The "Downtown Express" vehicle of the spec's route-plan scenario. -/
def vehDowntown : Vehicle :=
  ⟨"v1", "KA-01", "Downtown Express", "active", 40, "bus", "Stop A",
    "5 mins", none, 10, 10⟩

/-- The "Airport Shuttle" vehicle of the spec's route-plan scenario. -/
def vehAirport : Vehicle :=
  ⟨"v2", "KA-02", "Airport Shuttle", "active", 30, "shuttle", "Stop B",
    "3 mins", some 50, 20, 20⟩

/-- Datastore of the spec's route-plan scenario. -/
def dbPlanScenario : Datastore := ⟨[], [vehDowntown, vehAirport], [], []⟩

/-- Witness for C7: with query `from=Airport&to=City` over the scenario
vehicles, only "Airport Shuttle" is returned and `totalOptions = 1`. -/
theorem route_plan_matching_witness :
    routesPlanHandler (some "Airport") (some "City") dbPlanScenario =
      ⟨200, .plan "Airport" "City" [routeOptionOf vehAirport] 1,
        dbPlanScenario, [.selectVehicles]⟩ ∧
    vehDowntown ∉ matchingRoutes dbPlanScenario "Airport" "City" := by
  have h := route_plan_matching dbPlanScenario "Airport" "City" vehAirport
  exact ⟨(h.2 (by decide) (by decide)).trans (by decide), by decide⟩

/-! ### C8: staff statistics -/

/-- The spec-side notion the claim quantifies with: tickets created
during the same UTC calendar day as `now` (the whole day, including its
final second).  Stated from the claim's words, for comparison with the
handler's range query. -/
def ticketsCreatedSameDay (db : Datastore) (now : Nat) : List Ticket :=
  db.tickets.filter (fun t => t.created_at / msPerDay == now / msPerDay)

/-- Claim C8, amended. For a staff caller, `GET /api/staff/stats` returns
`passengers` equal to the number of tickets with `created_at` in
`[today 00:00:00, today 23:59:59)` — tickets from the final second of
the day are excluded by the `lt` bound — `revenue` equal to the sum of
their fares, and `trips = ⌊passengers / 18⌋`; the selected range is
characterised by the stated inequalities. -/
theorem staff_stats_today (db : Datastore) (uid : String) (now : Nat)
    (p : UserProfile) (h1 : profileFor db uid = some p)
    (h2 : p.role = "staff") :
    staffStatsHandler uid db now =
      ⟨200, .stats (todayRangeTickets db now).length
        (((todayRangeTickets db now).map (fun t => t.fare_amount)).sum)
        ((todayRangeTickets db now).length / 18)
        ((db.vehicles.filter (fun v => v.status == "active")).length), db,
        [.selectProfiles, .selectTickets, .selectVehicles]⟩ ∧
    (∀ t, t ∈ todayRangeTickets db now ↔
      t ∈ db.tickets ∧ dayStart now ≤ t.created_at ∧
        t.created_at < dayStart now + 86399000) := by
  constructor
  · simp [staffStatsHandler, h1, h2]
  · intro t
    unfold todayRangeTickets
    rw [List.mem_filter]
    simp [Bool.and_eq_true]

/-- A second staff profile, `s2`. -/
def profStaffS2 : UserProfile :=
  ⟨"s2", "s2@example.com", "Staff Two", "5550003", "staff", 0⟩

/-- A ticket created at 23:59:59.000 of day 0. -/
def tkLastSecond : Ticket :=
  ⟨"TKT-86399000-ZZZZZZ", "alice", "v1", "A", "B", 20, "confirmed", 0,
    86399000⟩

/-- Datastore for the C8 counterexample. -/
def dbLastSecond : Datastore := ⟨[profStaffS2], [], [], [tkLastSecond]⟩

/-- Counterexample to C8 as stated: at noon of day 0, one ticket was
created *today* at 23:59:59.000, yet the stats report `passengers = 0`
(and `revenue = 0`), because the handler's range ends strictly before
`T23:59:59`.  So "passengers equals the count of today's ticket rows"
fails. -/
theorem staff_stats_last_second_cex :
    (ticketsCreatedSameDay dbLastSecond 43200000).length = 1 ∧
    staffStatsHandler "s2" dbLastSecond 43200000 =
      ⟨200, .stats 0 0 0 0, dbLastSecond,
        [.selectProfiles, .selectTickets, .selectVehicles]⟩ := by
  decide

/-- Datastore of the spec's staff-stats scenario: three tickets created
mid-day with fares 20, 25 and 30. -/
def dbStatsScenario : Datastore :=
  ⟨[profStaffS2], [], [],
    [⟨"TKT-10000000-AAAAAA", "alice", "v1", "A", "B", 20, "confirmed", 0,
        10000000⟩,
      ⟨"TKT-20000000-BBBBBB", "alice", "v1", "A", "B", 25, "confirmed", 0,
        20000000⟩,
      ⟨"TKT-30000000-CCCCCC", "bob", "v1", "A", "B", 30, "confirmed", 0,
        30000000⟩]⟩

/-- Witness for C8 (amended): the scenario yields `passengers = 3`,
`revenue = 75`, `trips = 0`. -/
theorem staff_stats_today_witness :
    staffStatsHandler "s2" dbStatsScenario 43200000 =
      ⟨200, .stats 3 75 0 0, dbStatsScenario,
        [.selectProfiles, .selectTickets, .selectVehicles]⟩ :=
  ((staff_stats_today dbStatsScenario "s2" 43200000 profStaffS2
      (by decide) rfl).1).trans (by decide)

/-! ### C9: vehicle listing lat/lng -/

/-- Claim C9, amended. In the `GET /api/vehicles` shaping, a vehicle's
`lat` (resp. `lng`) is `null` iff its embedded location-join list is
empty **or** the first joined row's latitude (resp. longitude) is `0`
(the `|| null` coercion); otherwise it equals the first joined row's
coordinate.  The join carries no order clause, so the first row is the
first in table order, not necessarily the most recent. -/
theorem vehicle_view_latlng (db : Datastore) (v : Vehicle) :
    ((vehicleView db v).lat = none ↔
      ((locationsOf db v.id).head? = none ∨
        ∃ l, (locationsOf db v.id).head? = some l ∧ l.latitude = 0)) ∧
    (∀ l, (locationsOf db v.id).head? = some l → l.latitude ≠ 0 →
      (vehicleView db v).lat = some l.latitude) ∧
    ((vehicleView db v).lng = none ↔
      ((locationsOf db v.id).head? = none ∨
        ∃ l, (locationsOf db v.id).head? = some l ∧ l.longitude = 0)) ∧
    (∀ l, (locationsOf db v.id).head? = some l → l.longitude ≠ 0 →
      (vehicleView db v).lng = some l.longitude) := by
  cases hl : (locationsOf db v.id).head? with
  | none => simp [vehicleView, hl]
  | some l =>
    by_cases h0 : l.latitude = 0 <;> by_cases h1 : l.longitude = 0 <;>
      simp [vehicleView, hl, jsOrNullInt, h0, h1]

/-- A vehicle standing at the equator (latitude 0) for the C9
counterexample. -/
def vehZeroLat : Vehicle :=
  ⟨"v1", "KA-03", "Equator Line", "active", 40, "bus", "S", "1 min",
    none, 5, 5⟩

/-- The equator location row: latitude 0, longitude 50. -/
def locZeroLat : VehicleLocation := ⟨"v1", 0, 50, 10, 90, "s1", 100, 100⟩

/-- Datastore for the C9 counterexample. -/
def dbZeroLat : Datastore := ⟨[], [vehZeroLat], [locZeroLat], []⟩

/-- Counterexample to C9 as stated: vehicle `v1` *has* a location row
(latitude 0, longitude 50), yet the shaped `lat` is `null`, because
`|| null` collapses the falsy coordinate `0`.  Hence "lat is null iff no
location row exists" is false. -/
theorem vehicle_view_zero_lat_cex :
    locationsOf dbZeroLat "v1" ≠ [] ∧
    (vehicleView dbZeroLat vehZeroLat).lat = none ∧
    ¬((vehicleView dbZeroLat vehZeroLat).lat = none ↔
        locationsOf dbZeroLat "v1" = []) := by
  decide

/-- A vehicle with a nonzero-coordinate location row, for the C9
witness. -/
def vehNonzero : Vehicle :=
  ⟨"v2", "KA-04", "Hill Line", "active", 40, "bus", "S", "2 mins", none,
    6, 6⟩

/-- A location row with nonzero coordinates. -/
def locNonzero : VehicleLocation := ⟨"v2", 13, 77, 0, 0, "s1", 200, 200⟩

/-- Datastore for the C9 witness. -/
def dbNonzero : Datastore := ⟨[], [vehNonzero], [locNonzero], []⟩

/-- Witness for C9 (amended): with a nonzero first location row, the
shaped coordinates equal that row's values. -/
theorem vehicle_view_latlng_witness :
    (vehicleView dbNonzero vehNonzero).lat = some 13 ∧
    (vehicleView dbNonzero vehNonzero).lng = some 77 := by
  have h := vehicle_view_latlng dbNonzero vehNonzero
  exact ⟨h.2.1 locNonzero (by decide) (by decide),
    h.2.2.2 locNonzero (by decide) (by decide)⟩

end CityConnect
